import Mathlib

/-!
Shallow embedding of the Thorlabs PM16 power-meter driver
(`power_meter_gui.py`): the `USBTMC` transport layer and the `PM16`
instrument driver.  Device I/O is modelled by explicit state passing over a
`Transport` record holding a script of outcomes for the successive
low-level writes, a script of the successive device replies, and a log of
the I/O events performed so far.  Every operation returns its result
together with the updated transport, so the event log survives an error
and claims about "how many writes happened before the failure" are
directly statable.

Python floats appear only as parsed or compared values, never in
arithmetic, so they are embedded as exact rationals extended with the
non-finite values `nan`, `inf` and `ninf`; comparisons follow IEEE-754
semantics (every comparison with `nan` is false).  `pyFloat` embeds the
string-to-float conversion `float(s)` of CPython: surrounding whitespace
is stripped, matching is case-insensitive, the accepted bodies are
`inf`/`infinity`/`nan` and decimal literals with an optional fraction,
an optional exponent and PEP-515 underscores between digits.
-/

/-- A Python float value: an exact rational, or one of the non-finite
values. -/
inductive PyFloat where
  | finite (q : ℚ)
  | nan
  | inf
  | ninf
  deriving DecidableEq, Repr

namespace PyFloat

/-- Unary minus on Python floats (used for a leading sign in `float(s)`). -/
def neg : PyFloat → PyFloat
  | .finite q => .finite (-q)
  | .nan => .nan
  | .inf => .ninf
  | .ninf => .inf

/-- Truthiness of a Python float: `bool(x)` is `False` exactly for a zero
value; `nan` and the infinities are truthy. -/
def toBool : PyFloat → Bool
  | .finite q => decide (q ≠ 0)
  | _ => true

end PyFloat

/-- The Python comparison `a <= b` on floats: any comparison involving
`nan` is false. -/
def pyLe : PyFloat → PyFloat → Bool
  | .nan, _ => false
  | _, .nan => false
  | .ninf, _ => true
  | _, .inf => true
  | .inf, _ => false
  | .finite a, .finite b => decide (a ≤ b)
  | .finite _, .ninf => false

/-- The Python comparison `a < b` on floats: any comparison involving
`nan` is false. -/
def pyLt : PyFloat → PyFloat → Bool
  | .nan, _ => false
  | _, .nan => false
  | .inf, _ => false
  | _, .ninf => false
  | .ninf, _ => true
  | _, .inf => true
  | .finite a, .finite b => decide (a < b)

/-- Whitespace characters stripped by `float(s)` before parsing. -/
def isPySpace (c : Char) : Bool :=
  c = ' ' || c = '\t' || c = '\n' || c = '\r' || c = '\x0b' || c = '\x0c'

/-- Scan a run of decimal digits that may contain single underscores
between digits, accumulating the value and the count of digits consumed;
stops at the first character that does not continue the run and returns it
with the rest.  The head character is handled by the caller, so a leading
underscore never reaches the accumulator. -/
def scanDigits : List Char → Nat → Nat → Nat × Nat × List Char
  | [], acc, n => (acc, n, [])
  | c :: rest, acc, n =>
    if c.isDigit then
      scanDigits rest (10 * acc + (c.toNat - 48)) (n + 1)
    else if c = '_' then
      match rest with
      | d :: rest2 =>
        if d.isDigit then scanDigits rest2 (10 * acc + (d.toNat - 48)) (n + 1)
        else (acc, n, c :: rest)
      | [] => (acc, n, c :: rest)
    else (acc, n, c :: rest)

/-- Parse a nonempty underscore-grouped digit run: fails unless the first
character is a digit. -/
def parseDigits (cs : List Char) : Option (Nat × Nat × List Char) :=
  match cs with
  | c :: _ => if c.isDigit then some (scanDigits cs 0 0) else none
  | [] => none

/-- Parse the mantissa of a decimal float literal: integer digits with an
optional fraction, or a fraction alone; a trailing bare dot is accepted,
as in CPython. -/
def parseMantissa (cs : List Char) : Option (ℚ × List Char) :=
  match cs with
  | '.' :: rest =>
    match parseDigits rest with
    | some (f, n, rest2) => some ((f : ℚ) / 10 ^ n, rest2)
    | none => none
  | _ =>
    match parseDigits cs with
    | some (i, _, rest) =>
      match rest with
      | '.' :: rest2 =>
        match parseDigits rest2 with
        | some (f, n, rest3) => some ((i : ℚ) + (f : ℚ) / 10 ^ n, rest3)
        | none => some ((i : ℚ), rest2)
      | _ => some ((i : ℚ), rest)
    | none => none

/-- Parse an optional exponent part `e[+|-]digits` (the input is already
lowercased); absence of `e` leaves the input untouched with exponent 0. -/
def parseExp (cs : List Char) : Option (ℤ × List Char) :=
  match cs with
  | 'e' :: rest =>
    let (sgn, rest1) : Bool × List Char :=
      match rest with
      | '+' :: r => (false, r)
      | '-' :: r => (true, r)
      | r => (false, r)
    match parseDigits rest1 with
    | some (e, _, rest2) => some ((if sgn then -(e : ℤ) else (e : ℤ)), rest2)
    | none => none
  | _ => some (0, cs)

/-- Parse an unsigned float body (already lowercased): `inf`, `infinity`,
`nan`, or a decimal literal; the whole input must be consumed. -/
def parseBody (cs : List Char) : Option PyFloat :=
  if cs = ['i', 'n', 'f'] || cs = ['i', 'n', 'f', 'i', 'n', 'i', 't', 'y'] then
    some .inf
  else if cs = ['n', 'a', 'n'] then
    some .nan
  else
    match parseMantissa cs with
    | some (m, rest) =>
      match parseExp rest with
      | some (e, []) => some (.finite (m * (10 : ℚ) ^ e))
      | _ => none
    | none => none

/-- Strip the surrounding `float(s)` whitespace from a character list. -/
def stripPySpace (cs : List Char) : List Char :=
  ((cs.dropWhile isPySpace).reverse.dropWhile isPySpace).reverse

/-- The CPython string-to-float conversion `float(s)`: `none` models the
`ValueError` raised on a string that is not a float literal. -/
def pyFloat (s : String) : Option PyFloat :=
  let cs := stripPySpace (s.toList.map Char.toLower)
  match cs with
  | '+' :: rest => parseBody rest
  | '-' :: rest => (parseBody rest).map PyFloat.neg
  | _ => parseBody cs

/-- Truncation of a string to its first `n` characters, used to model the
bounded `os.read`. -/
def takeStr (s : String) (n : Nat) : String :=
  String.mk (s.data.take n)

/-- The error kinds surfaced by the driver.  `openError` is a failed
`os.open`; `ioError` is an `OSError` from a low-level read or write;
`parseError` is the `ValueError` raised by `float(s)` on a non-numeric
reply, carrying the offending text; `rangeError` is the `ValueError`
raised by `set_wavelength` on an out-of-range argument. -/
inductive Err where
  | openError
  | ioError
  | parseError (reply : String)
  | rangeError
  deriving DecidableEq, Repr

/-- Outcome of one low-level `os.write` call: either the OS reports `n`
bytes written (which may be fewer than requested), or it raises an
`OSError`. -/
inductive WriteOutcome where
  | ok (bytesWritten : Nat)
  | oserror
  deriving DecidableEq, Repr

/-- One observable effect performed on the device. -/
inductive Event where
  | openDev
  | write (data : String)
  | read (maxLength : Nat) (result : String)
  | sleep (seconds : Nat)
  deriving DecidableEq, Repr

/-- The state threaded through the embedded driver: a script of outcomes
for the successive low-level writes (exhausted script means every further
write fully succeeds), a script of the successive device replies, and the
log of the effects performed so far, in order. -/
structure Transport where
  wscript : List WriteOutcome
  replies : List String
  events : List Event
  deriving DecidableEq, Repr

namespace USBTMC

/-- Embeds `USBTMC.write`: `os.write(self.FILE, command.encode())`.  The
encoded bytes are the command text verbatim, with no terminator added.
The byte count returned by `os.write` is discarded by the source, so a
short write is indistinguishable from a full one; only an `OSError`
surfaces, as `ioError`. -/
def write (tr : Transport) (command : String) : Except Err Unit × Transport :=
  match tr.wscript with
  | .oserror :: ws => (.error .ioError, { tr with wscript := ws })
  | .ok _ :: ws =>
    (.ok (), { tr with wscript := ws, events := tr.events ++ [.write command] })
  | [] => (.ok (), { tr with events := tr.events ++ [.write command] })

/-- Embeds `USBTMC.read`: `os.read(self.FILE, length).decode("utf-8")`.
The next scripted reply is returned, truncated to at most `len`
characters — `os.read` returns whatever is available, up to the requested
length.  An exhausted reply script models an `OSError` from `os.read`. -/
def read (tr : Transport) (len : Nat := 4000) : Except Err String × Transport :=
  match tr.replies with
  | [] => (.error .ioError, tr)
  | r :: rs =>
    let res := takeStr r len
    (.ok res, { tr with replies := rs, events := tr.events ++ [.read len res] })

/-- Embeds `USBTMC.query`: a write followed by a read. -/
def query (tr : Transport) (command : String) (len : Nat := 4000) :
    Except Err String × Transport :=
  match write tr command with
  | (.ok _, tr1) => read tr1 len
  | (.error e, tr1) => (.error e, tr1)

end USBTMC

namespace PM16

/-- Embeds `PM16.power`: `float(self.query("Read?"))`. -/
def power (tr : Transport) : Except Err PyFloat × Transport :=
  match USBTMC.query tr "Read?" with
  | (.ok r, tr1) =>
    match pyFloat r with
    | some v => (.ok v, tr1)
    | none => (.error (.parseError r), tr1)
  | (.error e, tr1) => (.error e, tr1)

/-- Embeds `PM16.set_wavelength`: the guard
`if not 400 <= wavelength <= 1100: raise ValueError(...)` followed by
`self.write("SENS:CORR:WAV {}".format(wavelength))`.  The argument is a
Python float and the chained comparison is the conjunction of the two
`pyLe` comparisons, so any value for which either comparison is false —
including `nan` — is rejected before any device I/O.  The textual
rendering of the float by `format` is abstracted as the parameter
`fmt`. -/
def set_wavelength (fmt : PyFloat → String) (wavelength : PyFloat)
    (tr : Transport) : Except Err Unit × Transport :=
  if !(pyLe (.finite 400) wavelength && pyLe wavelength (.finite 1100)) then
    (.error .rangeError, tr)
  else
    USBTMC.write tr ("SENS:CORR:WAV " ++ fmt wavelength)

/-- Embeds `PM16.get_wavelength`: `float(self.query("SENS:CORR:WAV?"))`. -/
def get_wavelength (tr : Transport) : Except Err PyFloat × Transport :=
  match USBTMC.query tr "SENS:CORR:WAV?" with
  | (.ok r, tr1) =>
    match pyFloat r with
    | some v => (.ok v, tr1)
    | none => (.error (.parseError r), tr1)
  | (.error e, tr1) => (.error e, tr1)

/-- Embeds `PM16.set_auto_range`: writes `SENS:CORR:RANG:AUTO 1`, then
returns `"Auto-range on: %s" % str(bool(float(self.query("SENS:CURR:RANG:AUTO?"))))`. -/
def set_auto_range (tr : Transport) : Except Err String × Transport :=
  match USBTMC.write tr "SENS:CORR:RANG:AUTO 1" with
  | (.ok _, tr1) =>
    match USBTMC.query tr1 "SENS:CURR:RANG:AUTO?" with
    | (.ok r, tr2) =>
      match pyFloat r with
      | some v =>
        (.ok ("Auto-range on: " ++ (if v.toBool then "True" else "False")), tr2)
      | none => (.error (.parseError r), tr2)
    | (.error e, tr2) => (.error e, tr2)
  | (.error e, tr1) => (.error e, tr1)

/-- Embeds `PM16.zero_powermeter`: writes `SENS:CORR:COLL:ZERO:INIT`,
then returns the raw reply to `SENS:CORR:COLL:ZERO:MAGN?`. -/
def zero_powermeter (tr : Transport) : Except Err String × Transport :=
  match USBTMC.write tr "SENS:CORR:COLL:ZERO:INIT" with
  | (.ok _, tr1) => USBTMC.query tr1 "SENS:CORR:COLL:ZERO:MAGN?"
  | (.error e, tr1) => (.error e, tr1)

/-- Embeds `PM16.set_range` with its default argument `range=4.95e-3`:
writes `SENS:CURR:RANG:AUTO 0`, then
`SENS:CURR:RANG: UPP {}`.format(range)`.  As in `set_wavelength`, the
textual rendering of the float is abstracted as `fmt`. -/
def set_range (fmt : PyFloat → String) (tr : Transport)
    (range : PyFloat := .finite (4.95e-3 : ℚ)) : Except Err Unit × Transport :=
  match USBTMC.write tr "SENS:CURR:RANG:AUTO 0" with
  | (.ok _, tr1) => USBTMC.write tr1 ("SENS:CURR:RANG: UPP " ++ fmt range)
  | (.error e, tr1) => (.error e, tr1)

/-- Embeds `PM16.__init__`: opens the transport (`os.open`, modelled by
the flag `openOk`), sleeps one second, runs `set_auto_range`, then
`get_wavelength`; the confirmation string and the wavelength read back
are returned.  Any failure along the way propagates. -/
def init (openOk : Bool) (tr : Transport) :
    Except Err (String × PyFloat) × Transport :=
  if openOk then
    let tr0 := { tr with events := tr.events ++ [.openDev, .sleep 1] }
    match set_auto_range tr0 with
    | (.ok conf, tr1) =>
      match get_wavelength tr1 with
      | (.ok w, tr2) => (.ok (conf, w), tr2)
      | (.error e, tr2) => (.error e, tr2)
    | (.error e, tr1) => (.error e, tr1)
  else
    (.error .openError, tr)

end PM16

/-- Truncating a string to a bound at least its length leaves it
unchanged: a device reply shorter than the requested read length is
returned whole. -/
theorem takeStr_of_length_le (s : String) (n : Nat) (h : s.length ≤ n) :
    takeStr s n = s := by
  cases s with
  | mk data =>
    simp only [takeStr]
    rw [List.take_of_length_le]
    exact h

/-- Claim C1: for every wavelength value in the inclusive range
[400, 1100], `set_wavelength` succeeds and appends exactly one write
event — the corrected-wavelength command — and no read, leaving the reply
script untouched; for every value below 400 or above 1100 it fails with
the range error and leaves the transport completely untouched, so the
rejection happens before any device I/O. -/
theorem set_wavelength_range_gate (nm : ℚ) (fmt : PyFloat → String)
    (tr : Transport) (hw : tr.wscript = []) :
    (400 ≤ nm → nm ≤ 1100 →
      PM16.set_wavelength fmt (.finite nm) tr =
        (.ok (), { tr with
          events := tr.events ++ [.write ("SENS:CORR:WAV " ++ fmt (.finite nm))] })) ∧
    (nm < 400 ∨ 1100 < nm →
      PM16.set_wavelength fmt (.finite nm) tr = (.error .rangeError, tr)) := by
  constructor
  · intro h1 h2
    simp [PM16.set_wavelength, pyLe, h1, h2, USBTMC.write, hw]
  · intro h
    rcases h with h | h
    · simp [PM16.set_wavelength, pyLe, not_le.mpr h]
    · simp [PM16.set_wavelength, pyLe, not_le.mpr h]

/-- Witness for C1: setting 684 nm issues exactly the one corrected
wavelength write. -/
theorem set_wavelength_range_gate_witness :
    PM16.set_wavelength (fun _ => "684") (.finite 684) ⟨[], [], []⟩ =
      (.ok (), ⟨[], [], [.write "SENS:CORR:WAV 684"]⟩) :=
  (set_wavelength_range_gate 684 (fun _ => "684") ⟨[], [], []⟩ rfl).1
    (by norm_num) (by norm_num)

/-- Claim C9: `set_wavelength nan` is rejected with the range error and
issues zero writes, even though `nan < 400` and `1100 < nan` are both
false: the guard tests membership in the range, which is false for `nan`,
so it rejects every argument that is not provably in range. -/
theorem set_wavelength_nan_rejected (fmt : PyFloat → String) (tr : Transport) :
    PM16.set_wavelength fmt .nan tr = (.error .rangeError, tr) ∧
    pyLt .nan (.finite 400) = false ∧ pyLt (.finite 1100) .nan = false :=
  ⟨rfl, rfl, rfl⟩

/-- Claim C2: `power` sends the `Read?` query and parses the reply as a
float: on the reply with trailing newline it returns 0.015692888, and on
the non-numeric reply `nope` it fails with the parse error carrying that
text instead of returning a value. -/
theorem power_parses_reply :
    PM16.power ⟨[], ["1.5692888e-02\n"], []⟩ =
      (.ok (.finite (0.015692888 : ℚ)),
       ⟨[], [], [.write "Read?", .read 4000 "1.5692888e-02\n"]⟩) ∧
    PM16.power ⟨[], ["nope"], []⟩ =
      (.error (.parseError "nope"),
       ⟨[], [], [.write "Read?", .read 4000 "nope"]⟩) := by
  constructor <;> with_unfolding_all rfl

/-- Claim C7: when the read returns fewer characters than the 4000
requested, `power` still attempts to parse the returned text: it returns
the parsed value when the text is a complete number and fails cleanly
with the parse error when it is not; being a total function of the
scripted transport, it can neither block nor crash. -/
theorem power_short_reply (tr : Transport) (r : String) (rs : List String)
    (hw : tr.wscript = []) (hr : tr.replies = r :: rs) (hlen : r.length < 4000) :
    (pyFloat r = none →
      PM16.power tr = (.error (.parseError r),
        { tr with
            replies := rs,
            events := tr.events ++ [.write "Read?", .read 4000 r] })) ∧
    (∀ v, pyFloat r = some v →
      PM16.power tr = (.ok v,
        { tr with
            replies := rs,
            events := tr.events ++ [.write "Read?", .read 4000 r] })) := by
  have htake : takeStr r 4000 = r := takeStr_of_length_le r 4000 (le_of_lt hlen)
  constructor
  · intro hp
    simp [PM16.power, USBTMC.query, USBTMC.write, USBTMC.read, hw, hr, htake, hp]
  · intro v hp
    simp [PM16.power, USBTMC.query, USBTMC.write, USBTMC.read, hw, hr, htake, hp]

/-- Witness for C7: a 4-character truncated reply that is not a complete
number yields the parse error. -/
theorem power_short_reply_witness :
    PM16.power ⟨[], ["1.5e"], []⟩ =
      (.error (.parseError "1.5e"),
       ⟨[], [], [.write "Read?", .read 4000 "1.5e"]⟩) :=
  (power_short_reply ⟨[], ["1.5e"], []⟩ "1.5e" [] rfl rfl (by decide)).1
    (by with_unfolding_all rfl)

/-- Claim C4: `set_auto_range` first writes the auto-range enable
command, then queries the auto-range state; on a numeric reply it returns
the confirmation string built from the truthiness of the parsed value —
reply `1` gives the enabled confirmation and reply `0` the disabled one —
and on a non-numeric reply it fails with the parse error. -/
theorem set_auto_range_confirmation (tr : Transport) (r : String)
    (rs : List String) (hw : tr.wscript = []) (hr : tr.replies = r :: rs)
    (hlen : r.length ≤ 4000) :
    (∀ v, pyFloat r = some v →
      PM16.set_auto_range tr =
        (.ok ("Auto-range on: " ++ (if v.toBool then "True" else "False")),
         { tr with
             replies := rs,
             events := tr.events ++ [.write "SENS:CORR:RANG:AUTO 1",
               .write "SENS:CURR:RANG:AUTO?", .read 4000 r] })) ∧
    (pyFloat r = none →
      PM16.set_auto_range tr =
        (.error (.parseError r),
         { tr with
             replies := rs,
             events := tr.events ++ [.write "SENS:CORR:RANG:AUTO 1",
               .write "SENS:CURR:RANG:AUTO?", .read 4000 r] })) ∧
    (PM16.set_auto_range ⟨[], ["1"], []⟩).1 = .ok "Auto-range on: True" ∧
    (PM16.set_auto_range ⟨[], ["0"], []⟩).1 = .ok "Auto-range on: False" := by
  have htake : takeStr r 4000 = r := takeStr_of_length_le r 4000 hlen
  refine ⟨?_, ?_, ?_, ?_⟩
  · intro v hp
    simp [PM16.set_auto_range, USBTMC.query, USBTMC.write, USBTMC.read,
      hw, hr, htake, hp]
  · intro hp
    simp [PM16.set_auto_range, USBTMC.query, USBTMC.write, USBTMC.read,
      hw, hr, htake, hp]
  · with_unfolding_all rfl
  · with_unfolding_all rfl

/-- Witness for C4: a device replying `1` to the state query yields the
enabled confirmation after the two writes and one read. -/
theorem set_auto_range_confirmation_witness :
    PM16.set_auto_range ⟨[], ["1"], []⟩ =
      (.ok "Auto-range on: True",
       ⟨[], [], [.write "SENS:CORR:RANG:AUTO 1",
         .write "SENS:CURR:RANG:AUTO?", .read 4000 "1"]⟩) := by
  have h := (set_auto_range_confirmation ⟨[], ["1"], []⟩ "1" [] rfl rfl
    (by decide)).1 (.finite 1) (by with_unfolding_all rfl)
  with_unfolding_all exact h

/-- Claim C10: for a state reply parsing to a finite value q, the
confirmation is exactly the enabled string when q is nonzero and exactly
the disabled string when q is zero; in particular the replies `2` and
`0.5`, not only `1`, are reported as enabled. -/
theorem set_auto_range_nonzero_reports_true (tr : Transport) (r : String)
    (rs : List String) (q : ℚ) (hw : tr.wscript = []) (hr : tr.replies = r :: rs)
    (hlen : r.length ≤ 4000) (hp : pyFloat r = some (.finite q)) :
    (PM16.set_auto_range tr).1 =
      .ok ("Auto-range on: " ++ (if q ≠ 0 then "True" else "False")) ∧
    (PM16.set_auto_range ⟨[], ["2"], []⟩).1 = .ok "Auto-range on: True" ∧
    (PM16.set_auto_range ⟨[], ["0.5"], []⟩).1 = .ok "Auto-range on: True" := by
  have htake : takeStr r 4000 = r := takeStr_of_length_le r 4000 hlen
  refine ⟨?_, ?_, ?_⟩
  · simp [PM16.set_auto_range, USBTMC.query, USBTMC.write, USBTMC.read,
      hw, hr, htake, hp, PyFloat.toBool]
  · with_unfolding_all rfl
  · with_unfolding_all rfl

/-- Witness for C10: the nonzero reply `2` is reported as enabled. -/
theorem set_auto_range_nonzero_reports_true_witness :
    (PM16.set_auto_range ⟨[], ["2"], []⟩).1 = .ok "Auto-range on: True" := by
  have h := (set_auto_range_nonzero_reports_true ⟨[], ["2"], []⟩ "2" [] 2 rfl rfl
    (by decide) (by with_unfolding_all rfl)).1
  with_unfolding_all exact h

/-- Claim C5: for every threshold value, `set_range` issues exactly two
writes in order — the auto-range disable command, then the threshold
command — with no validation of the threshold and no read. -/
theorem set_range_two_writes (fmt : PyFloat → String) (w : PyFloat)
    (tr : Transport) (hw : tr.wscript = []) :
    PM16.set_range fmt tr w =
      (.ok (), { tr with
        events := tr.events ++ [.write "SENS:CURR:RANG:AUTO 0",
          .write ("SENS:CURR:RANG: UPP " ++ fmt w)] }) := by
  simp [PM16.set_range, USBTMC.write, hw]

/-- Witness for C5: a concrete threshold produces exactly the two writes
in order. -/
theorem set_range_two_writes_witness :
    PM16.set_range (fun _ => "0.001") ⟨[], [], []⟩ (.finite (1/1000)) =
      (.ok (), ⟨[], [], [.write "SENS:CURR:RANG:AUTO 0",
        .write "SENS:CURR:RANG: UPP 0.001"]⟩) := by
  have h := set_range_two_writes (fun _ => "0.001") (.finite (1/1000))
    ⟨[], [], []⟩ rfl
  with_unfolding_all exact h

/-- Claim C8: calling `set_range` with no threshold argument uses the
default threshold 4.95e-3 = 99/20000, so it behaves identically to the
call with that threshold made explicit, producing the same two writes. -/
theorem set_range_default_threshold (fmt : PyFloat → String) (tr : Transport)
    (hw : tr.wscript = []) :
    PM16.set_range fmt tr = PM16.set_range fmt tr (.finite (4.95e-3 : ℚ)) ∧
    PM16.set_range fmt tr =
      (.ok (), { tr with
        events := tr.events ++ [.write "SENS:CURR:RANG:AUTO 0",
          .write ("SENS:CURR:RANG: UPP " ++ fmt (.finite (99/20000 : ℚ)))] }) := by
  have h495 : (4.95e-3 : ℚ) = (99/20000 : ℚ) := by with_unfolding_all rfl
  constructor
  · rfl
  · simp [PM16.set_range, USBTMC.write, hw, h495]

/-- Witness for C8: the no-argument call performs the two writes with the
default threshold. -/
theorem set_range_default_threshold_witness :
    PM16.set_range (fun _ => "0.00495") ⟨[], [], []⟩ =
      (.ok (), ⟨[], [], [.write "SENS:CURR:RANG:AUTO 0",
        .write "SENS:CURR:RANG: UPP 0.00495"]⟩) := by
  have h := (set_range_default_threshold (fun _ => "0.00495") ⟨[], [], []⟩ rfl).2
  with_unfolding_all exact h

/-- Claim C6 counterexample: a low-level write that reports only 1 of the
4 requested bytes written does not fail — the byte count that `os.write`
returns is discarded by the source, so `write` reports success on a short
write instead of the claimed I/O error. -/
theorem write_short_not_detected :
    USBTMC.write ⟨[.ok 1], [], []⟩ "*RST" =
      (.ok (), ⟨[], [], [.write "*RST"]⟩) ∧ 1 < "*RST".length :=
  ⟨rfl, by decide⟩

/-- Claim C6 as amended: `write` encodes the text and writes it verbatim
with no framing added, fails with the I/O error exactly when the
underlying write raises an OS error, never retries, and silently accepts
a short write (any reported byte count gives the same successful
result). -/
theorem write_verbatim_no_retry (tr : Transport) (cmd : String) :
    (∀ n ws, tr.wscript = .ok n :: ws →
      USBTMC.write tr cmd =
        (.ok (), { tr with
          wscript := ws,
          events := tr.events ++ [.write cmd] })) ∧
    (∀ ws, tr.wscript = .oserror :: ws →
      USBTMC.write tr cmd = (.error .ioError, { tr with wscript := ws })) ∧
    (tr.wscript = [] →
      USBTMC.write tr cmd =
        (.ok (), { tr with events := tr.events ++ [.write cmd] })) := by
  refine ⟨?_, ?_, ?_⟩
  · intro n ws h
    simp [USBTMC.write, h]
  · intro ws h
    simp [USBTMC.write, h]
  · intro h
    simp [USBTMC.write, h]

/-- Witness for the amended C6: an OS error on the low-level write
surfaces as the I/O error. -/
theorem write_verbatim_no_retry_witness :
    USBTMC.write ⟨[.oserror], [], []⟩ "*RST" = (.error .ioError, ⟨[], [], []⟩) := by
  have h := (write_verbatim_no_retry ⟨[.oserror], [], []⟩ "*RST").2.1 [] rfl
  with_unfolding_all exact h

/-- Claim C3: construction performs, in order, the transport open, the
fixed one-second settle delay, the auto-range enable with its state
read-back, and the wavelength read-back; it fails with the open error
when the transport open fails, and with the parse error when the
auto-range state reply or the wavelength reply is not numeric. -/
theorem init_sequence (r1 r2 : String) (v1 v2 : PyFloat) (tr : Transport)
    (hw : tr.wscript = []) (hr : tr.replies = [r1, r2])
    (hl1 : r1.length ≤ 4000) (hl2 : r2.length ≤ 4000)
    (h1 : pyFloat r1 = some v1) (h2 : pyFloat r2 = some v2) :
    PM16.init true tr =
      (.ok ("Auto-range on: " ++ (if v1.toBool then "True" else "False"), v2),
       { tr with
           replies := [],
           events := tr.events ++ [.openDev, .sleep 1,
             .write "SENS:CORR:RANG:AUTO 1", .write "SENS:CURR:RANG:AUTO?",
             .read 4000 r1, .write "SENS:CORR:WAV?", .read 4000 r2] }) ∧
    (∀ trb, PM16.init false trb = (.error .openError, trb)) ∧
    (∀ r rs tra, tra.wscript = [] → tra.replies = r :: rs → r.length ≤ 4000 →
      pyFloat r = none →
      PM16.init true tra =
        (.error (.parseError r),
         { tra with
             replies := rs,
             events := tra.events ++ [.openDev, .sleep 1,
               .write "SENS:CORR:RANG:AUTO 1", .write "SENS:CURR:RANG:AUTO?",
               .read 4000 r] })) ∧
    (∀ r rb rs tra va, tra.wscript = [] → tra.replies = r :: rb :: rs →
      r.length ≤ 4000 → rb.length ≤ 4000 →
      pyFloat r = some va → pyFloat rb = none →
      PM16.init true tra =
        (.error (.parseError rb),
         { tra with
             replies := rs,
             events := tra.events ++ [.openDev, .sleep 1,
               .write "SENS:CORR:RANG:AUTO 1", .write "SENS:CURR:RANG:AUTO?",
               .read 4000 r, .write "SENS:CORR:WAV?", .read 4000 rb] })) := by
  have ht1 : takeStr r1 4000 = r1 := takeStr_of_length_le r1 4000 hl1
  have ht2 : takeStr r2 4000 = r2 := takeStr_of_length_le r2 4000 hl2
  refine ⟨?_, ?_, ?_, ?_⟩
  · simp [PM16.init, PM16.set_auto_range, PM16.get_wavelength, USBTMC.query,
      USBTMC.write, USBTMC.read, hw, hr, ht1, ht2, h1, h2]
  · intro trb
    simp [PM16.init]
  · intro r rs tra haw har hal hap
    have ht : takeStr r 4000 = r := takeStr_of_length_le r 4000 hal
    simp [PM16.init, PM16.set_auto_range, USBTMC.query, USBTMC.write,
      USBTMC.read, haw, har, ht, hap]
  · intro r rb rs tra va haw har hal halb hap hapb
    have ht : takeStr r 4000 = r := takeStr_of_length_le r 4000 hal
    have htb : takeStr rb 4000 = rb := takeStr_of_length_le rb 4000 halb
    simp [PM16.init, PM16.set_auto_range, PM16.get_wavelength, USBTMC.query,
      USBTMC.write, USBTMC.read, haw, har, ht, htb, hap, hapb]

/-- Witness for C3: with state reply `1` and wavelength reply `780.0`,
construction succeeds and performs open, delay, auto-range and wavelength
read-back in order. -/
theorem init_sequence_witness :
    PM16.init true ⟨[], ["1", "780.0"], []⟩ =
      (.ok ("Auto-range on: True", .finite 780),
       ⟨[], [], [.openDev, .sleep 1,
         .write "SENS:CORR:RANG:AUTO 1", .write "SENS:CURR:RANG:AUTO?",
         .read 4000 "1", .write "SENS:CORR:WAV?", .read 4000 "780.0"]⟩) := by
  have h := (init_sequence "1" "780.0" (.finite 1) (.finite 780)
    ⟨[], ["1", "780.0"], []⟩ rfl rfl (by decide) (by decide)
    (by with_unfolding_all rfl) (by with_unfolding_all rfl)).1
  with_unfolding_all exact h
